import Mathlib

/-!
Verification of the shard lifecycle & cache coordination layer of the
GearBot-2 bot backend. The Rust source is shallowly embedded: handler
functions become pure Lean functions over explicit state and an explicit
environment of collaborator outcomes; machine integers become `Nat` with
explicit `% 2^64` where wrapping matters; fallible code returns `Except`.
-/

namespace GearBot

/-- Error type of the bot (`crate::utils::Error`). `InvalidSession` is the
variant returned on a non-resumable gateway session invalidation; every
other failure source (twilight cluster command errors, database errors,
parser errors) is wrapped into a distinct variant carrying an opaque
code, so it is never `InvalidSession`. -/
inductive Error where
  | InvalidSession : Error
  | Twilight : Nat → Error
  | Database : Nat → Error
  | ParseFailure : Nat → Error
deriving DecidableEq

/-- Modelled from the spec: `CachedGuild` (its defining module is not in the
source excerpt; only the `complete` atomic flag is read by the command
handler). Spec §3: "identifier, name, `complete` flag (atomic boolean:
true once the initial member/role snapshot has fully arrived)". The
channel/role/member id sets are irrelevant to the claims and omitted. -/
structure CachedGuild where
  id : Nat
  name : String
  complete : Bool
deriving DecidableEq

/-- Modelled from the spec: `GuildConfig` (defining module not in the source
excerpt); the command handler reads only its per-guild command marker
string (`config.value().prefix`), here named `pfx` because the source's
field name is reserved in Lean. -/
structure GuildConfig where
  pfx : String
deriving DecidableEq

/-- A message-create payload, with the fields the command handler reads:
`author.bot`, `author.id`, `content`, `guild_id`. -/
structure Msg where
  author_bot : Bool
  author_id : Nat
  content : String
  guild_id : Option Nat
deriving DecidableEq

/-- Environment of collaborator outcomes for
`core::handlers::commands::handle_event`: the entity cache lookup
(`ctx.cache.get_guild`), the config fetch (`ctx.get_config`, fallible),
the bot's own user id (`ctx.bot_user.id`), and the command pipeline
(`Parser::figure_it_out`, fallible), given the matched marker string and
the message. -/
structure CmdEnv where
  cache : Nat → Option CachedGuild
  getConfig : Nat → Except Error GuildConfig
  botUserId : Nat
  parse : String → Msg → Except Error Unit

/-- The marker-matching tail of the handler (commands.rs lines 41-57):
try the configured marker `p`, then the two mention forms; if one
matches the start of the content, invoke the parser with it. Returns
the marker actually forwarded with (if any) and the handler result. -/
def runWithPfx (env : CmdEnv) (msg : Msg) (p : String) :
    Option String × Except Error Unit :=
  let m1 := "<@" ++ toString env.botUserId ++ ">"
  let m2 := "<@!" ++ toString env.botUserId ++ ">"
  let chosen : Option String :=
    if msg.content.startsWith p then some p
    else if msg.content.startsWith m1 then some m1
    else if msg.content.startsWith m2 then some m2
    else none
  match chosen with
  | some pr => (some pr, env.parse pr msg)
  | none => (none, Except.ok ())

/-- `core::handlers::commands::handle_event` for a `MessageCreate` event
(commands.rs lines 16-62). The first component records the marker string
the message was forwarded to `Parser::figure_it_out` with (`none` means
the parser was never invoked). Bot authors and all non-message events
fall through to `Ok(())` without forwarding. -/
def commands_handle_event (env : CmdEnv) (msg : Msg) :
    Option String × Except Error Unit :=
  if msg.author_bot then (none, Except.ok ())
  else
    match msg.guild_id with
    | some gid =>
      match env.cache gid with
      | none => (none, Except.ok ())
      | some g =>
        if g.complete = false then (none, Except.ok ())
        else
          match env.getConfig gid with
          | Except.error e => (none, Except.error e)
          | Except.ok config => runWithPfx env msg config.pfx
    | none => runWithPfx env msg "!"

/-- Per-shard lifecycle state (`core::bot_context::ShardState`). -/
inductive ShardState where
  | PendingCreation | Connecting | Identifying | Connected
  | Ready | Resuming | Reconnecting | Disconnected
deriving DecidableEq

/-- Presence status used by the general handler's `UpdateStatus` commands
(`twilight::model::gateway::presence::Status`, only the two used). -/
inductive Status where
  | online | idle
deriving DecidableEq

/-- The fields of the `UpdateStatus` gateway command the general handler
constructs: afk flag, the watched activity's name, and the status. -/
structure UpdateStatus where
  afk : Bool
  activity_name : String
  status : Status
deriving DecidableEq

/-- A member-chunk payload (`MemberChunk`): originating guild, the
correlation nonce (optional on the wire), and the member ids carried. -/
structure Chunk where
  guild_id : Nat
  nonce : Option String
  members : List Nat
deriving DecidableEq

/-- Events dispatched by `core::handlers::general::handle_event`; `other`
stands for every event kind the handler's `_ => ()` arm ignores. -/
inductive GEvent where
  | shardReconnecting
  | shardResuming
  | ready
  | gatewayInvalidateSession (resumable : Bool)
  | gatewayReconnect
  | gatewayHello (interval : Nat)
  | resumed
  | memberChunk (chunk : Chunk)
  | other
deriving DecidableEq

/-- Shared state the general handler touches or that the spec says the
event router owns: the shard state table (`ctx.shard_states`, a map from
shard index) and the request correlator (`ctx.chunk_requests`, a map
from nonce to the pending waiter, identified here by a numeric id). -/
structure GenState where
  shard_states : Nat → Option ShardState
  chunk_requests : String → Option Nat

/-- Result of one general-handler invocation: the updated shared state,
the gateway commands issued (`ctx.cluster.command` calls, in order), the
chunk payloads delivered to waiters, and the returned `Result`. -/
structure GenOut where
  state : GenState
  commands : List (Nat × UpdateStatus)
  deliveries : List (Nat × Chunk)
  result : Except Error Unit

/-- `core::handlers::general::handle_event` (general.rs lines 14-77).
`cmd` gives the outcome of each `ctx.cluster.command` call: `none` for
success, `some c` for a cluster transport error with code `c`, which the
`?` operator wraps as `Error.Twilight c` (cluster errors are a distinct
type from `Error.InvalidSession`). Log-only arms are no-ops. -/
def general_handle_event (cmd : Nat → UpdateStatus → Option Nat)
    (shard_id : Nat) (ev : GEvent) (st : GenState) : GenOut :=
  match ev with
  | GEvent.ready =>
    let u : UpdateStatus := ⟨false, "the gears turn", Status.online⟩
    match cmd shard_id u with
    | some c => ⟨st, [(shard_id, u)], [], Except.error (Error.Twilight c)⟩
    | none => ⟨st, [(shard_id, u)], [], Except.ok ()⟩
  | GEvent.gatewayInvalidateSession resumable =>
    if resumable then ⟨st, [], [], Except.ok ()⟩
    else ⟨st, [], [], Except.error Error.InvalidSession⟩
  | GEvent.gatewayHello _ =>
    let u : UpdateStatus := ⟨true, "things coming online", Status.idle⟩
    match cmd shard_id u with
    | some c => ⟨st, [(shard_id, u)], [], Except.error (Error.Twilight c)⟩
    | none => ⟨st, [(shard_id, u)], [], Except.ok ()⟩
  | GEvent.memberChunk chunk =>
    match chunk.nonce with
    | some nonce =>
      match st.chunk_requests nonce with
      | some waiter =>
        ⟨{ st with chunk_requests :=
             fun m => if m = nonce then none else st.chunk_requests m },
         [], [(waiter, chunk)], Except.ok ()⟩
      | none => ⟨st, [], [], Except.ok ()⟩
    | none => ⟨st, [], [], Except.ok ()⟩
  | _ => ⟨st, [], [], Except.ok ()⟩

/-- Functional model of `HashMap::insert`: later inserts shadow earlier
ones for the same key. -/
def insertFn {α : Type} (m : Nat → Option α) (k : Nat) (v : α) :
    Nat → Option α :=
  fun j => if j = k then some v else m j

/-- The shard-state table built by `BotContext::new` (bot_context/mod.rs
lines 77-88): for each `i` in
`cluster_id * shards_per_cluster .. cluster_id * shards_per_cluster +
shards_per_cluster`, insert `ShardState::PendingCreation` into an
initially empty map. -/
def init_shard_states (cluster_id shards_per_cluster : Nat) :
    Nat → Option ShardState :=
  (List.range' (cluster_id * shards_per_cluster) shards_per_cluster).foldl
    (fun m i => insertFn m i ShardState.PendingCreation) (fun _ => none)

/-- The `missing_per_shard` counters initialized by the same loop of
`BotContext::new`: `AtomicU64::new(0)` inserted for each owned shard. -/
def init_missing_per_shard (cluster_id shards_per_cluster : Nat) :
    Nat → Option Nat :=
  (List.range' (cluster_id * shards_per_cluster) shards_per_cluster).foldl
    (fun m i => insertFn m i 0) (fun _ => none)

/-- A scalar value of the serialized cache format. The concrete byte
encoding of scalars is irrelevant to the claims; records are modelled as
tag-value lists. -/
inductive Value where
  | vnat : Nat → Value
  | vint : Int → Value
  | vstr : String → Value
  | vbool : Bool → Value
deriving DecidableEq

def asNat : Value → Option Nat
  | Value.vnat n => some n
  | _ => none

def asInt : Value → Option Int
  | Value.vint i => some i
  | _ => none

def asStr : Value → Option String
  | Value.vstr s => some s
  | _ => none

def asBool : Value → Option Bool
  | Value.vbool b => some b
  | _ => none

/-- `core::cache::CachedRole` (role.rs lines 10-28). `id` is the `RoleId`
snowflake, `permissions` the permission bitset, both as `Nat`;
`position` is the `i64` position as `Int`. -/
structure CachedRole where
  id : Nat
  name : String
  color : Nat
  hoisted : Bool
  position : Int
  permissions : Nat
  managed : Bool
  mentionable : Bool
deriving DecidableEq

/-- Serialization of `CachedRole` under its serde attributes: each field
carries its one-letter rename tag "a".."h"; the fields marked
`skip_serializing_if = "is_default"` (c, d, e, g, h) are omitted when
equal to their type's default (0, false, 0, false, false). The
`is_default` helper itself is not in the source excerpt; modelled from
the spec's rule that default-valued fields are elided, as equality with
the type's `Default::default()`. -/
def serialize_role (r : CachedRole) : List (String × Value) :=
  [("a", Value.vnat r.id), ("b", Value.vstr r.name)] ++
  (if r.color = 0 then [] else [("c", Value.vnat r.color)]) ++
  (if r.hoisted = false then [] else [("d", Value.vbool r.hoisted)]) ++
  (if r.position = 0 then [] else [("e", Value.vint r.position)]) ++
  [("f", Value.vnat r.permissions)] ++
  (if r.managed = false then [] else [("g", Value.vbool r.managed)]) ++
  (if r.mentionable = false then [] else [("h", Value.vbool r.mentionable)])

/-- First value stored under `tag`, scanning left to right (serde field
lookup; unknown tags are skipped over). -/
def getField : List (String × Value) → String → Option Value
  | [], _ => none
  | (t, v) :: rest, tag => if t = tag then some v else getField rest tag

/-- Deserialization of a `CachedRole` record under its serde attributes:
tags `a`, `b`, `f` are required (no `default` attribute — a missing or
ill-typed value is an error, i.e. `none`); tags `c`, `d`, `e`, `g`, `h`
carry `default`, so an absent field takes the type's default while a
present but ill-typed value is still an error. -/
def deserialize_role (rec : List (String × Value)) : Option CachedRole := do
  let id ← (getField rec "a").bind asNat
  let name ← (getField rec "b").bind asStr
  let color ← match getField rec "c" with
    | none => some 0
    | some v => asNat v
  let hoisted ← match getField rec "d" with
    | none => some false
    | some v => asBool v
  let position ← match getField rec "e" with
    | none => some (0 : Int)
    | some v => asInt v
  let permissions ← (getField rec "f").bind asNat
  let managed ← match getField rec "g" with
    | none => some false
    | some v => asBool v
  let mentionable ← match getField rec "h" with
    | none => some false
    | some v => asBool v
  some ⟨id, name, color, hoisted, position, permissions, managed,
        mentionable⟩

/-- Word size of the `AtomicUsize` counters of `BotStats`. -/
def USIZE : Nat := 2 ^ 64

/-- Wrapping increment, the semantics of `fetch_add(1, Relaxed)` on an
`AtomicUsize` (the read-modify-write cycle as a whole; orderings do not
arise in this single-threaded model). -/
def wrap_incr (n : Nat) : Nat := (n + 1) % USIZE

/-- Wrapping decrement, the semantics of `fetch_sub(1, Relaxed)`. -/
def wrap_decr (n : Nat) : Nat := (n + (USIZE - 1)) % USIZE

/-- The counters of `core::context::bot::stats::BotStats` (stats.rs lines
8-18), each an `AtomicUsize` value below `2^64`. -/
structure BotStats where
  user_messages : Nat
  bot_messages : Nat
  my_messages : Nat
  error_count : Nat
  commands_ran : Nat
  custom_commands_ran : Nat
  guilds : Nat
deriving DecidableEq

/-- `BotStats::new_message` (stats.rs lines 21-32): `author_bot` is
`msg.author.bot`; `is_own` is `ctx.is_own(msg)`, i.e. whether the
author id equals the bot's own user id. -/
def new_message (author_bot is_own : Bool) (s : BotStats) : BotStats :=
  if author_bot then
    let s := if is_own then { s with my_messages := wrap_incr s.my_messages }
             else s
    { s with bot_messages := wrap_incr s.bot_messages }
  else
    { s with user_messages := wrap_incr s.user_messages }

/-- `BotStats::left_guild` (stats.rs lines 42-44): a wrapping
`fetch_sub(1)` on the `guilds` counter. -/
def left_guild (s : BotStats) : BotStats :=
  { s with guilds := wrap_decr s.guilds }

end GearBot

namespace GearBot

/-- C1: for a message-create event whose author is not a bot and that
carries a guild id, the handler returns `Ok` without forwarding when the
guild is absent from the cache or not complete, and forwards to the
parser only when the guild is cached and complete. -/
theorem message_create_guild_gate (env : CmdEnv) (msg : Msg) (gid : Nat)
    (hbot : msg.author_bot = false) (hg : msg.guild_id = some gid) :
    ((env.cache gid = none ∨
        (∃ g, env.cache gid = some g ∧ g.complete = false)) →
      commands_handle_event env msg = (none, Except.ok ())) ∧
    ((commands_handle_event env msg).1.isSome = true →
      ∃ g, env.cache gid = some g ∧ g.complete = true) := by
  constructor
  · intro hdrop
    rcases hdrop with hnone | ⟨g, hsome, hinc⟩
    · simp [commands_handle_event, hbot, hg, hnone]
    · simp [commands_handle_event, hbot, hg, hsome, hinc]
  · intro hfwd
    rcases hc : env.cache gid with _ | g
    · simp [commands_handle_event, hbot, hg, hc] at hfwd
    · rcases hcomp : g.complete with _ | _
      · simp [commands_handle_event, hbot, hg, hc, hcomp] at hfwd
      · exact ⟨g, rfl, hcomp⟩

/-- Concrete instantiation of C1: a message for guild 5, which is absent
from the cache, is silently dropped. -/
theorem message_create_guild_gate_witness :
    ((({ cache := fun _ => none, getConfig := fun _ => Except.ok ⟨"!"⟩,
         botUserId := 99, parse := fun _ _ => Except.ok () } : CmdEnv).cache 5
          = none ∨
        (∃ g, ({ cache := fun _ => none,
                 getConfig := fun _ => Except.ok ⟨"!"⟩,
                 botUserId := 99,
                 parse := fun _ _ => Except.ok () } : CmdEnv).cache 5 = some g ∧
                g.complete = false)) →
      commands_handle_event
        { cache := fun _ => none, getConfig := fun _ => Except.ok ⟨"!"⟩,
          botUserId := 99, parse := fun _ _ => Except.ok () }
        ⟨false, 7, "!ping", some 5⟩ = (none, Except.ok ())) ∧
    ((commands_handle_event
        { cache := fun _ => none, getConfig := fun _ => Except.ok ⟨"!"⟩,
          botUserId := 99, parse := fun _ _ => Except.ok () }
        ⟨false, 7, "!ping", some 5⟩).1.isSome = true →
      ∃ g, ({ cache := fun _ => none, getConfig := fun _ => Except.ok ⟨"!"⟩,
              botUserId := 99,
              parse := fun _ _ => Except.ok () } : CmdEnv).cache 5 = some g ∧
            g.complete = true) :=
  message_create_guild_gate _ _ 5 rfl rfl

/-- C8: a non-bot message-create event with no guild id bypasses the
guild-completeness gate: its handling is independent of the cache and the
config store, and when the content starts with `"!"` it is forwarded to
the parser with the fixed default marker `"!"`. -/
theorem message_create_dm_bypasses_gate (env env' : CmdEnv) (msg : Msg)
    (hbot : msg.author_bot = false) (hg : msg.guild_id = none)
    (hid : env.botUserId = env'.botUserId) (hp : env.parse = env'.parse) :
    commands_handle_event env msg = commands_handle_event env' msg ∧
    (msg.content.startsWith "!" = true →
      (commands_handle_event env msg).1 = some "!") := by
  constructor
  · simp [commands_handle_event, hbot, hg, runWithPfx, hid, hp]
  · intro hstart
    simp [commands_handle_event, hbot, hg, runWithPfx, hstart]

/-- Concrete instantiation of C8: a direct message "!ping" is handled
identically under two environments with entirely different caches and
config stores, and is forwarded with marker "!". -/
theorem message_create_dm_bypasses_gate_witness :
    (commands_handle_event
        { cache := fun _ => none, getConfig := fun _ => Except.error (Error.Database 1),
          botUserId := 99, parse := fun _ _ => Except.ok () }
        ⟨false, 7, "!ping", none⟩ =
      commands_handle_event
        { cache := fun g => some ⟨g, "g", true⟩, getConfig := fun _ => Except.ok ⟨"?"⟩,
          botUserId := 99, parse := fun _ _ => Except.ok () }
        ⟨false, 7, "!ping", none⟩) ∧
    (("!ping" : String).startsWith "!" = true →
      (commands_handle_event
        { cache := fun _ => none, getConfig := fun _ => Except.error (Error.Database 1),
          botUserId := 99, parse := fun _ _ => Except.ok () }
        ⟨false, 7, "!ping", none⟩).1 = some "!") :=
  message_create_dm_bypasses_gate _ _ _ rfl rfl rfl rfl

/-- C2: a member-chunk event whose nonce matches a pending correlator
entry removes exactly that entry and delivers the chunk to exactly that
one waiter with an `Ok` result; an unknown nonce or an absent nonce is a
silent no-op (state unchanged, nothing delivered, `Ok`). -/
theorem member_chunk_resolution (cmd : Nat → UpdateStatus → Option Nat)
    (sid : Nat) (st : GenState) (chunk : Chunk) :
    (∀ nonce waiter, chunk.nonce = some nonce →
      st.chunk_requests nonce = some waiter →
      (general_handle_event cmd sid (GEvent.memberChunk chunk) st).deliveries
          = [(waiter, chunk)] ∧
        (general_handle_event cmd sid (GEvent.memberChunk chunk)
            st).state.chunk_requests nonce = none ∧
        (∀ m, m ≠ nonce →
          (general_handle_event cmd sid (GEvent.memberChunk chunk)
              st).state.chunk_requests m = st.chunk_requests m) ∧
        (general_handle_event cmd sid (GEvent.memberChunk chunk) st).result
          = Except.ok ()) ∧
    (∀ nonce, chunk.nonce = some nonce → st.chunk_requests nonce = none →
      general_handle_event cmd sid (GEvent.memberChunk chunk) st
        = ⟨st, [], [], Except.ok ()⟩) ∧
    (chunk.nonce = none →
      general_handle_event cmd sid (GEvent.memberChunk chunk) st
        = ⟨st, [], [], Except.ok ()⟩) := by
  refine ⟨?_, ?_, ?_⟩
  · intro nonce waiter hn hw
    refine ⟨?_, ?_, ?_, ?_⟩
    · simp [general_handle_event, hn, hw]
    · simp [general_handle_event, hn, hw]
    · intro m hm
      simp [general_handle_event, hn, hw, if_neg hm]
    · simp [general_handle_event, hn, hw]
  · intro nonce hn hw
    simp [general_handle_event, hn, hw]
  · intro hn
    simp [general_handle_event, hn]

/-- Concrete instantiation of C2: a chunk with nonce "abc" matching the
(sole) pending entry, whose waiter is 7, is delivered to waiter 7 and
the entry is removed, without an error. -/
theorem member_chunk_resolution_witness :
    (general_handle_event (fun _ _ => none) 0
        (GEvent.memberChunk ⟨5, some "abc", [1, 2]⟩)
        ⟨fun _ => none, fun n => if n = "abc" then some 7 else none⟩).deliveries
      = [(7, ⟨5, some "abc", [1, 2]⟩)] ∧
    (general_handle_event (fun _ _ => none) 0
        (GEvent.memberChunk ⟨5, some "abc", [1, 2]⟩)
        ⟨fun _ => none,
         fun n => if n = "abc" then some 7 else none⟩).state.chunk_requests
        "abc" = none ∧
    (∀ m, m ≠ "abc" →
      (general_handle_event (fun _ _ => none) 0
          (GEvent.memberChunk ⟨5, some "abc", [1, 2]⟩)
          ⟨fun _ => none,
           fun n => if n = "abc" then some 7 else none⟩).state.chunk_requests
          m = (if m = "abc" then some 7 else none)) ∧
    (general_handle_event (fun _ _ => none) 0
        (GEvent.memberChunk ⟨5, some "abc", [1, 2]⟩)
        ⟨fun _ => none, fun n => if n = "abc" then some 7 else none⟩).result
      = Except.ok () :=
  (member_chunk_resolution (fun _ _ => none) 0
      ⟨fun _ => none, fun n => if n = "abc" then some 7 else none⟩
      ⟨5, some "abc", [1, 2]⟩).1 "abc" 7 rfl (by simp)

/-- C3: the general handler returns `Error.InvalidSession` exactly on a
non-resumable session invalidation; a resumable invalidation yields
`Ok` (handled locally, never surfaced). -/
theorem invalid_session_surfacing (cmd : Nat → UpdateStatus → Option Nat)
    (sid : Nat) (ev : GEvent) (st : GenState) :
    ((general_handle_event cmd sid ev st).result
        = Except.error Error.InvalidSession ↔
      ev = GEvent.gatewayInvalidateSession false) ∧
    (general_handle_event cmd sid
        (GEvent.gatewayInvalidateSession true) st).result = Except.ok () := by
  constructor
  · constructor
    · intro h
      cases ev with
      | ready =>
        rcases hc : cmd sid ⟨false, "the gears turn", Status.online⟩ with _ | c <;>
          simp [general_handle_event, hc] at h
      | gatewayInvalidateSession r =>
        cases r with
        | false => rfl
        | true => simp [general_handle_event] at h
      | gatewayHello n =>
        rcases hc : cmd sid ⟨true, "things coming online", Status.idle⟩ with _ | c <;>
          simp [general_handle_event, hc] at h
      | memberChunk chunk =>
        rcases hn : chunk.nonce with _ | nonce
        · simp [general_handle_event, hn] at h
        · rcases hw : st.chunk_requests nonce with _ | w <;>
            simp [general_handle_event, hn, hw] at h
      | shardReconnecting => simp [general_handle_event] at h
      | shardResuming => simp [general_handle_event] at h
      | gatewayReconnect => simp [general_handle_event] at h
      | resumed => simp [general_handle_event] at h
      | other => simp [general_handle_event] at h
    · intro h
      subst h
      rfl
  · rfl

/-- C7 counterexample: the claim says a shard-ready event sets that
shard's entry of the Shard State Table to `Ready`; in fact, starting
from the freshly-constructed table (shard 0 in `PendingCreation`),
after the handler processes `Ready` for shard 0 the entry is still
`PendingCreation`, not `Ready`. -/
theorem ready_does_not_set_table_entry :
    (general_handle_event (fun _ _ => none) 0 GEvent.ready
        ⟨fun i => if i = 0 then some ShardState.PendingCreation else none,
         fun _ => none⟩).state.shard_states 0 ≠ some ShardState.Ready := by
  decide

/-- C7 (amended): on a shard-ready event the handler issues exactly one
presence-update command for that shard — non-afk, watching activity
"the gears turn", status online — and leaves the shared state (in
particular the shard state table) unchanged. -/
theorem ready_issues_presence_update (cmd : Nat → UpdateStatus → Option Nat)
    (sid : Nat) (st : GenState) :
    (general_handle_event cmd sid GEvent.ready st).state = st ∧
    (general_handle_event cmd sid GEvent.ready st).commands
      = [(sid, ⟨false, "the gears turn", Status.online⟩)] := by
  rcases hc : cmd sid ⟨false, "the gears turn", Status.online⟩ with _ | c <;>
    simp [general_handle_event, hc]

/-- Folding constant-value inserts over a key list yields the map sending
exactly the listed keys to that value. -/
theorem foldl_insertFn_eq {α : Type} (l : List Nat) (v : α)
    (base : Nat → Option α) (k : Nat) :
    (l.foldl (fun m i => insertFn m i v) base) k
      = if k ∈ l then some v else base k := by
  induction l generalizing base with
  | nil => simp
  | cons a t ih =>
    rw [List.foldl_cons, ih]
    by_cases hk : k ∈ t
    · simp [hk]
    · by_cases ha : k = a <;> simp [insertFn, hk, ha]

/-- C6: after `BotContext::new`, the shard-state table maps exactly the
shard indices owned by this cluster — those in
`[cluster_id * shards_per_cluster,
cluster_id * shards_per_cluster + shards_per_cluster)` — to
`PendingCreation`, every owned shard's missing counter is `0`, and
neither table has an entry for any index outside that range. -/
theorem bot_context_new_shard_tables (cluster_id shards_per_cluster i : Nat) :
    init_shard_states cluster_id shards_per_cluster i
      = (if cluster_id * shards_per_cluster ≤ i ∧
            i < cluster_id * shards_per_cluster + shards_per_cluster
         then some ShardState.PendingCreation else none) ∧
    init_missing_per_shard cluster_id shards_per_cluster i
      = (if cluster_id * shards_per_cluster ≤ i ∧
            i < cluster_id * shards_per_cluster + shards_per_cluster
         then some 0 else none) := by
  constructor
  · rw [init_shard_states, foldl_insertFn_eq]
    simp only [List.mem_range'_1]
  · rw [init_missing_per_shard, foldl_insertFn_eq]
    simp only [List.mem_range'_1]

/-- C4: serializing any `CachedRole` and deserializing the result
reproduces a role with identical values for every attribute. -/
theorem cached_role_round_trip (r : CachedRole) :
    deserialize_role (serialize_role r) = some r := by
  rcases r with ⟨i, nm, c, h, p, pm, mg, mt⟩
  by_cases hc : c = 0
  · by_cases hp : p = 0
    · subst hc; subst hp
      cases h <;> cases mg <;> cases mt <;> rfl
    · subst hc
      simp only [serialize_role, if_pos rfl, if_neg hp]
      cases h <;> cases mg <;> cases mt <;> rfl
  · by_cases hp : p = 0
    · subst hp
      simp only [serialize_role, if_neg hc, if_pos rfl]
      cases h <;> cases mg <;> cases mt <;> rfl
    · simp only [serialize_role, if_neg hc, if_neg hp]
      cases h <;> cases mg <;> cases mt <;> rfl

/-- C5 counterexample: the claim says the absence of any tagged field is
never a deserialization error; in fact a record lacking tag "a" (the
role id, which has no serde `default` attribute) fails to deserialize. -/
theorem absent_id_field_is_error :
    deserialize_role [("b", Value.vstr ""), ("f", Value.vnat 0)] = none := by
  rfl

/-- C5 (amended): for the fields carrying a serde `default` attribute —
color (c), hoisted (d), position (e), managed (g), mentionable (h) —
absence is never an error: a record holding only the required tags a, b
and f deserializes successfully with every defaultable field at its
type's default. Absence of a required tag (a, b or f) is an error. -/
theorem absent_default_fields_take_defaults (i pm : Nat) (nm : String) :
    deserialize_role
        [("a", Value.vnat i), ("b", Value.vstr nm), ("f", Value.vnat pm)]
      = some ⟨i, nm, 0, false, 0, pm, false, false⟩ := by
  rfl

/-- C9: `left_guild` on a zero guild counter neither fails nor saturates:
the `fetch_sub` wraps modulo `2^64`, leaving the counter at the maximum
unsigned value `2^64 - 1`. -/
theorem left_guild_zero_wraps (s : BotStats) (h0 : s.guilds = 0) :
    (left_guild s).guilds = 2 ^ 64 - 1 := by
  simp [left_guild, wrap_decr, USIZE, h0]

/-- Concrete instantiation of C9: decrementing the guild count of a
fresh all-zero `BotStats` leaves the counter at `2^64 - 1`. -/
theorem left_guild_zero_wraps_witness :
    (left_guild ⟨0, 0, 0, 0, 0, 0, 0⟩).guilds = 2 ^ 64 - 1 :=
  left_guild_zero_wraps ⟨0, 0, 0, 0, 0, 0, 0⟩ rfl

/-- C10: `new_message` increments exactly one of `user_messages` (author
not a bot) or `bot_messages` (author a bot), increments `my_messages`
exactly when the author is a bot and is the bot itself, and leaves
`error_count`, `commands_ran`, `custom_commands_ran` and `guilds`
unchanged. -/
theorem new_message_frame (author_bot is_own : Bool) (s : BotStats) :
    (new_message author_bot is_own s).user_messages
        = (if author_bot then s.user_messages
           else wrap_incr s.user_messages) ∧
    (new_message author_bot is_own s).bot_messages
        = (if author_bot then wrap_incr s.bot_messages
           else s.bot_messages) ∧
    (new_message author_bot is_own s).my_messages
        = (if author_bot && is_own then wrap_incr s.my_messages
           else s.my_messages) ∧
    (new_message author_bot is_own s).error_count = s.error_count ∧
    (new_message author_bot is_own s).commands_ran = s.commands_ran ∧
    (new_message author_bot is_own s).custom_commands_ran
        = s.custom_commands_ran ∧
    (new_message author_bot is_own s).guilds = s.guilds := by
  cases author_bot <;> cases is_own <;> simp [new_message]

end GearBot
